import Mathlib

/-!
Shallow embedding of the SendIT parcel-delivery core (OrderModel, ParcelModel,
tracking-number generator, Haversine distance) and proofs of the specified
properties.

Conventions of the embedding:
* JavaScript `number` values that the program only compares, adds and
  multiplies (coordinates, weights, dimensions, prices as written in the
  configuration) are modelled as rationals `ℚ`; the output of the
  trigonometric Haversine distance is modelled as a real `ℝ`.
* `Date` values are modelled as integer millisecond timestamps (`ℤ`, with the
  current time `now : ℕ` since `Date.now()` is non-negative).
* A thrown `Error(msg)` is modelled as `Except.error msg`; `Except.ok` is a
  normal return.  The spec's error kinds map to the thrown messages:
  `NotFound` = "Parcel not found", `Forbidden` = "Parcel does not belong to
  user", `InvalidInput` = the validation messages, `InvalidState` = the
  status-guard messages.
* The `Map` stores (`this.orders`, `this.parcels`) are modelled as
  association lists with `Map.get` = `List.lookup` and `Map.set` = `mapSet`.
* Effects read inside a method (`Date.now()`, `Math.random()`, `uuidv4()`)
  are passed as explicit parameters.
-/

namespace SendIT

/-- Model of `Location` from src/types: latitude/longitude plus address fields.
Coordinates are JS numbers, modelled as `ℚ`. -/
structure Location where
  latitude : ℚ
  longitude : ℚ
  address : String
  city : String
  state : String
  country : String
  postalCode : String
  deriving DecidableEq, Repr

/-- Parcel dimensions `{length, width, height}` in cm. -/
structure Dimensions where
  length : ℚ
  width : ℚ
  height : ℚ
  deriving DecidableEq, Repr

/-- Model of `Parcel` from src/types. -/
structure Parcel where
  id : String
  userId : String
  description : String
  weight : ℚ
  dimensions : Dimensions
  value : ℚ
  fragile : Bool
  createdAt : ℤ
  updatedAt : ℤ
  deriving DecidableEq, Repr

/-- Model of `CreateParcelRequest` from src/types. -/
structure CreateParcelRequest where
  description : String
  weight : ℚ
  dimensions : Dimensions
  value : ℚ
  fragile : Bool
  deriving DecidableEq, Repr

/-- Model of `OrderStatus` enum from src/types. -/
inductive OrderStatus where
  | pending
  | picked_up
  | in_transit
  | out_for_delivery
  | delivered
  | cancelled
  deriving DecidableEq, Repr

/-- Model of `WeightCategory` enum from src/types. -/
inductive WeightCategory where
  | light
  | medium
  | heavy
  | extra_heavy
  deriving DecidableEq, Repr

/-- Model of `OrderModel.pricingConfig.basePrice` (10 USD). -/
def basePrice : ℚ := 10

/-- Model of `OrderModel.pricingConfig.pricePerKm` (0.5 USD/km). -/
def pricePerKm : ℚ := 0.5

/-- Model of `OrderModel.pricingConfig.weightMultipliers`. -/
def weightMultiplier : WeightCategory → ℚ
  | .light => 1.0
  | .medium => 1.2
  | .heavy => 1.5
  | .extra_heavy => 2.0

/-- Model of `OrderModel.getWeightCategory` (identical to `ParcelModel.getWeightCategory`):
thresholds ≤5 light, ≤20 medium, ≤50 heavy, else extra_heavy. -/
def getWeightCategory (weight : ℚ) : WeightCategory :=
  if weight ≤ 5 then .light
  else if weight ≤ 20 then .medium
  else if weight ≤ 50 then .heavy
  else .extra_heavy

/-- Model of `OrderModel.calculatePrice`: basePrice + distance * pricePerKm * multiplier.
The distance argument is the (real-valued) Haversine output. -/
def calculatePrice (weight : ℚ) (distance : ℝ) : ℝ :=
  (basePrice : ℝ) +
    (distance * (pricePerKm : ℝ) * (weightMultiplier (getWeightCategory weight) : ℝ))

/-- JS `String.prototype.trim`: strip leading and trailing whitespace. -/
def jsTrim (s : String) : String :=
  String.mk
    (((s.data.dropWhile Char.isWhitespace).reverse.dropWhile
      Char.isWhitespace).reverse)

/-- Model of `OrderModel.validateLocation`.  JS falsiness of a number field
(`!location.latitude`) is the value being `0`; falsiness of the string field
(`!location.address`) is the string being empty. -/
def validateLocation (location : Location) : Except String Unit :=
  if location.latitude = 0 ∨ location.longitude = 0 then
    .error "Latitude and longitude are required"
  else if location.latitude < -90 ∨ location.latitude > 90 then
    .error "Invalid latitude"
  else if location.longitude < -180 ∨ location.longitude > 180 then
    .error "Invalid longitude"
  else if location.address = "" ∨ (jsTrim location.address).length = 0 then
    .error "Address is required"
  else
    .ok ()

/-- Model of `ParcelModel.isOversized`: the largest dimension exceeds 150 cm. -/
def isOversized (dimensions : Dimensions) : Bool :=
  max (max dimensions.length dimensions.width) dimensions.height > 150

/-- Model of `ParcelModel.validateParcelData`. -/
def validateParcelData (parcelData : CreateParcelRequest) : Except String Unit :=
  if parcelData.weight ≤ 0 then
    .error "Weight must be greater than 0"
  else if parcelData.weight > 100 then
    .error "Weight cannot exceed 100kg"
  else if parcelData.dimensions.length ≤ 0 ∨ parcelData.dimensions.width ≤ 0 ∨
      parcelData.dimensions.height ≤ 0 then
    .error "All dimensions must be greater than 0"
  else if isOversized parcelData.dimensions then
    .error "Parcel dimensions exceed maximum allowed size"
  else if parcelData.value < 0 then
    .error "Parcel value cannot be negative"
  else if parcelData.description = "" ∨ (jsTrim parcelData.description).length = 0 then
    .error "Description is required"
  else if parcelData.description.length > 500 then
    .error "Description cannot exceed 500 characters"
  else
    .ok ()

/-- Model of `OrderModel.toRadians`: degrees * (Math.PI / 180). -/
noncomputable def toRadians (degrees : ℝ) : ℝ :=
  degrees * (Real.pi / 180)

/-- JS `Math.atan2(y, x)` over the reals (standard two-argument arctangent). -/
noncomputable def atan2 (y x : ℝ) : ℝ :=
  if 0 < x then Real.arctan (y / x)
  else if x < 0 ∧ 0 ≤ y then Real.arctan (y / x) + Real.pi
  else if x < 0 ∧ y < 0 then Real.arctan (y / x) - Real.pi
  else if x = 0 ∧ 0 < y then Real.pi / 2
  else if x = 0 ∧ y < 0 then -(Real.pi / 2)
  else 0

/-- Model of `OrderModel.calculateDistance` (identical formula to
`GoogleMapsService.calculateHaversineDistance`): Haversine great-circle
distance with Earth radius 6371 km. -/
noncomputable def calculateDistance (location1 location2 : Location) : ℝ :=
  let R : ℝ := 6371
  let dLat := toRadians ((location2.latitude : ℝ) - (location1.latitude : ℝ))
  let dLon := toRadians ((location2.longitude : ℝ) - (location1.longitude : ℝ))
  let a := Real.sin (dLat / 2) * Real.sin (dLat / 2) +
    Real.cos (toRadians (location1.latitude : ℝ)) *
      Real.cos (toRadians (location2.latitude : ℝ)) *
      (Real.sin (dLon / 2) * Real.sin (dLon / 2))
  let c := 2 * atan2 (Real.sqrt a) (Real.sqrt (1 - a))
  R * c

/-- Model of `OrderModel.calculateDuration`: Math.ceil(distance / 50 * 60) minutes. -/
noncomputable def calculateDuration (distance : ℝ) : ℤ :=
  ⌈distance / 50 * 60⌉

/-- Base-36 digit character, as produced by JS `Number.prototype.toString(36)`:
0-9 then lowercase a-z. -/
def digitChar36 (d : ℕ) : Char :=
  if d < 10 then Char.ofNat (48 + d) else Char.ofNat (87 + d)

/-- JS `n.toString(36)` for a non-negative integer: most-significant digit
first, at least one digit. -/
def toBase36 (n : ℕ) : List Char :=
  if h : n < 36 then [digitChar36 n]
  else toBase36 (n / 36) ++ [digitChar36 (n % 36)]
  decreasing_by exact Nat.div_lt_self (by omega) (by omega)

/-- JS `String.prototype.toUpperCase` restricted to ASCII, on one character:
a-z (codes 97-122) map down by 32, everything else is unchanged. -/
def asciiToUpper (c : Char) : Char :=
  if 97 ≤ c.toNat ∧ c.toNat ≤ 122 then Char.ofNat (c.toNat - 32) else c

/-- JS `String.prototype.toUpperCase` restricted to ASCII strings. -/
def toUpperCase (s : String) : String :=
  String.mk (s.data.map asciiToUpper)

/-- Model of `OrderModel.generateTrackingNumber`: `SIT` + Date.now().toString(36) +
a random base-36 suffix (`Math.random().toString(36).substring(2, 8)`,
passed in as `rand`), all upper-cased.  `t` is the millisecond timestamp. -/
def generateTrackingNumber (t : ℕ) (rand : String) : String :=
  toUpperCase ("SIT" ++ String.mk (toBase36 t) ++ rand)

/-- Model of `DeliveryOrder` from src/types.  `distance`, `duration`, `price`,
`estimatedDelivery` are always populated by `OrderModel`, so they are kept
non-optional here. -/
structure DeliveryOrder where
  id : String
  userId : String
  parcelId : String
  pickupLocation : Location
  destinationLocation : Location
  status : OrderStatus
  currentLocation : Option Location
  estimatedDelivery : ℤ
  actualDelivery : Option ℤ
  distance : ℝ
  duration : ℤ
  price : ℝ
  trackingNumber : String
  createdAt : ℤ
  updatedAt : ℤ

/-- Model of `CreateOrderRequest` from src/types. -/
structure CreateOrderRequest where
  parcelId : String
  pickupLocation : Location
  destinationLocation : Location
  deriving DecidableEq, Repr

/-- The `OrderModel.orders` map, as an association list keyed by order id. -/
def OrdersMap := List (String × DeliveryOrder)

/-- Model of `this.orders.get(id)`. -/
def lookupOrder (orders : OrdersMap) (id : String) : Option DeliveryOrder :=
  List.lookup id orders

/-- Model of `this.orders.set(id, order)`: replace the binding for `id`, or append. -/
def mapSet (orders : OrdersMap) (id : String) (order : DeliveryOrder) : OrdersMap :=
  match orders with
  | [] => [(id, order)]
  | (k, v) :: rest =>
      if k = id then (id, order) :: rest else (k, v) :: mapSet rest id order

/-- Model of `ParcelModel.getParcelById` over the parcel store. -/
def getParcelById (parcels : List Parcel) (id : String) : Option Parcel :=
  parcels.find? (fun p => p.id == id)

/-- Model of `OrderModel.createOrder`.  Parameters for the ambient effects: `now` is
`Date.now()` (ms), `newId` the `uuidv4()` result, `rand` the random base-36
suffix used by `generateTrackingNumber`.  Returns the thrown error or the
created order, together with the resulting `orders` map. -/
noncomputable def createOrder (orders : OrdersMap) (parcels : List Parcel)
    (userId : String) (orderData : CreateOrderRequest)
    (now : ℕ) (newId : String) (rand : String) :
    Except String DeliveryOrder × OrdersMap :=
  match getParcelById parcels orderData.parcelId with
  | none => (.error "Parcel not found", orders)
  | some parcel =>
    if parcel.userId ≠ userId then
      (.error "Parcel does not belong to user", orders)
    else
      match validateLocation orderData.pickupLocation with
      | .error e => (.error e, orders)
      | .ok _ =>
        match validateLocation orderData.destinationLocation with
        | .error e => (.error e, orders)
        | .ok _ =>
          let distance := calculateDistance orderData.pickupLocation
            orderData.destinationLocation
          let duration := calculateDuration distance
          let price := calculatePrice parcel.weight distance
          let trackingNumber := generateTrackingNumber now rand
          let order : DeliveryOrder :=
            { id := newId
              userId := userId
              parcelId := orderData.parcelId
              pickupLocation := orderData.pickupLocation
              destinationLocation := orderData.destinationLocation
              status := .pending
              currentLocation := none
              estimatedDelivery := (now : ℤ) + duration * 60 * 1000
              actualDelivery := none
              distance := distance
              duration := duration
              price := price
              trackingNumber := trackingNumber
              createdAt := (now : ℤ)
              updatedAt := (now : ℤ) }
          (.ok order, mapSet orders order.id order)

/-- Model of `OrderModel.updateOrderStatus`.  `currentLocation` is the optional third
argument (`none` when the caller omits it); `now` is `Date.now()` (ms). -/
def updateOrderStatus (orders : OrdersMap) (id : String) (status : OrderStatus)
    (currentLocation : Option Location) (now : ℕ) :
    Option DeliveryOrder × OrdersMap :=
  match lookupOrder orders id with
  | none => (none, orders)
  | some order =>
    let updatedOrder : DeliveryOrder :=
      { order with
        status := status
        currentLocation := currentLocation
        updatedAt := (now : ℤ) }
    let updatedOrder :=
      if status = OrderStatus.delivered then
        { updatedOrder with actualDelivery := some (now : ℤ) }
      else updatedOrder
    (some updatedOrder, mapSet orders id updatedOrder)

/-- Model of `OrderModel.updateOrderDestination`. -/
noncomputable def updateOrderDestination (orders : OrdersMap)
    (parcels : List Parcel) (id : String) (destinationLocation : Location)
    (now : ℕ) : Except String (Option DeliveryOrder) × OrdersMap :=
  match lookupOrder orders id with
  | none => (.ok none, orders)
  | some order =>
    if order.status ≠ OrderStatus.pending then
      (.error "Cannot change destination for orders that are already in progress",
        orders)
    else
      match validateLocation destinationLocation with
      | .error e => (.error e, orders)
      | .ok _ =>
        let distance := calculateDistance order.pickupLocation destinationLocation
        let duration := calculateDuration distance
        match getParcelById parcels order.parcelId with
        | none => (.error "Parcel not found", orders)
        | some parcel =>
          let price := calculatePrice parcel.weight distance
          let updatedOrder : DeliveryOrder :=
            { order with
              destinationLocation := destinationLocation
              distance := distance
              duration := duration
              price := price
              estimatedDelivery := (now : ℤ) + duration * 60 * 1000
              updatedAt := (now : ℤ) }
          (.ok (some updatedOrder), mapSet orders id updatedOrder)

/-- Model of `OrderModel.cancelOrder`: guard against terminal states, then delegate to
`updateOrderStatus` with no location argument. -/
def cancelOrder (orders : OrdersMap) (id : String) (now : ℕ) :
    Except String (Option DeliveryOrder × OrdersMap) :=
  match lookupOrder orders id with
  | none => .ok (none, orders)
  | some order =>
    if order.status = OrderStatus.delivered ∨ order.status = OrderStatus.cancelled then
      .error "Cannot cancel order that is already delivered or cancelled"
    else
      .ok (updateOrderStatus orders id OrderStatus.cancelled none now)

/-- Position of a weight tier in the order light → medium → heavy →
extra_heavy (used to state monotonicity across tiers). -/
def tierIndex : WeightCategory → ℕ
  | .light => 0
  | .medium => 1
  | .heavy => 2
  | .extra_heavy => 3

/-- Concrete valid pickup location used by the witnesses. -/
def demoPickup : Location :=
  { latitude := 7, longitude := 3, address := "1 Pickup Way", city := "Lagos",
    state := "LA", country := "NG", postalCode := "100001" }

/-- Concrete valid destination location used by the witnesses. -/
def demoDest : Location :=
  { latitude := 8, longitude := 4, address := "2 Dest Rd", city := "Abuja",
    state := "FC", country := "NG", postalCode := "900001" }

/-- Concrete parcel used by the witnesses. -/
def demoParcel : Parcel :=
  { id := "parcel-1", userId := "user-1", description := "Box", weight := 2,
    dimensions := { length := 10, width := 10, height := 10 }, value := 5,
    fragile := false, createdAt := 0, updatedAt := 0 }

/-- Concrete order-creation request used by the witnesses. -/
def demoRequest : CreateOrderRequest :=
  { parcelId := "parcel-1", pickupLocation := demoPickup,
    destinationLocation := demoDest }

/-- Request whose pickup location has a falsy (0) latitude. -/
def demoBadPickupRequest : CreateOrderRequest :=
  { parcelId := "parcel-1",
    pickupLocation := { demoPickup with latitude := 0 },
    destinationLocation := demoDest }

/-- Request whose destination location has an out-of-range longitude. -/
def demoBadDestRequest : CreateOrderRequest :=
  { parcelId := "parcel-1", pickupLocation := demoPickup,
    destinationLocation := { demoDest with longitude := 200 } }

/-- Concrete pending order used by the witnesses. -/
def demoOrder : DeliveryOrder :=
  { id := "order-1", userId := "user-1", parcelId := "parcel-1",
    pickupLocation := demoPickup, destinationLocation := demoDest,
    status := .pending, currentLocation := some demoPickup,
    estimatedDelivery := 0, actualDelivery := none, distance := 0,
    duration := 0, price := 0, trackingNumber := "SIT0", createdAt := 0,
    updatedAt := 0 }

/-- Order produced by `createOrder` on the demo inputs. -/
noncomputable def demoCreatedOrder : DeliveryOrder :=
  { id := "o-1"
    userId := "user-1"
    parcelId := demoRequest.parcelId
    pickupLocation := demoRequest.pickupLocation
    destinationLocation := demoRequest.destinationLocation
    status := .pending
    currentLocation := none
    estimatedDelivery := ((1700000000000 : ℕ) : ℤ) +
      calculateDuration
        (calculateDistance demoRequest.pickupLocation
          demoRequest.destinationLocation) * 60 * 1000
    actualDelivery := none
    distance := calculateDistance demoRequest.pickupLocation
      demoRequest.destinationLocation
    duration := calculateDuration
      (calculateDistance demoRequest.pickupLocation
        demoRequest.destinationLocation)
    price := calculatePrice demoParcel.weight
      (calculateDistance demoRequest.pickupLocation
        demoRequest.destinationLocation)
    trackingNumber := generateTrackingNumber 1700000000000 "abc123"
    createdAt := ((1700000000000 : ℕ) : ℤ)
    updatedAt := ((1700000000000 : ℕ) : ℤ) }

/-- Order produced by `updateOrderDestination` on the demo inputs. -/
noncomputable def demoUpdatedOrder : DeliveryOrder :=
  { demoOrder with
    destinationLocation := demoDest
    distance := calculateDistance demoOrder.pickupLocation demoDest
    duration := calculateDuration
      (calculateDistance demoOrder.pickupLocation demoDest)
    price := calculatePrice demoParcel.weight
      (calculateDistance demoOrder.pickupLocation demoDest)
    estimatedDelivery := ((1700000000000 : ℕ) : ℤ) +
      calculateDuration
        (calculateDistance demoOrder.pickupLocation demoDest) * 60 * 1000
    updatedAt := ((1700000000000 : ℕ) : ℤ) }

/-- Characters that JS `toString(36)` can produce: digits 0-9 (codes 48-57)
and lowercase a-z (codes 97-122). -/
def isLowerB36 (c : Char) : Bool :=
  (48 ≤ c.toNat && c.toNat ≤ 57) || (97 ≤ c.toNat && c.toNat ≤ 122)

/-- Characters allowed by the spec's tracking-number character class
[0-9A-Z]: digits (codes 48-57) and uppercase letters (codes 65-90). -/
def isUpperB36 (c : Char) : Bool :=
  (48 ≤ c.toNat && c.toNat ≤ 57) || (65 ≤ c.toNat && c.toNat ≤ 90)

/-- Spec-side (regex `SIT[0-9A-Z]+`) shape of a tracking number, written
from the spec's words for the refinement claim about
`generateTrackingNumber`. -/
def specTrackingShape (s : String) : Bool :=
  (s.data.take 3 == ['S', 'I', 'T']) && (3 < s.data.length : Bool) &&
    (s.data.drop 3).all isUpperB36

/-- C3: for every weight `w` and distance `d`,
`price(w, d) = 10 + d * 0.5 * m` with `m` = 1.0 for `w ≤ 5`, 1.2 for
`5 < w ≤ 20`, 1.5 for `20 < w ≤ 50`, 2.0 for `w > 50`; and the weight
category at the boundary weights 5, 5.01, 20, 50, 50.01 is light, medium,
medium, heavy, extra_heavy respectively. -/
theorem calculatePrice_formula :
    (∀ (w : ℚ) (d : ℝ),
      calculatePrice w d =
        10 + d * 0.5 *
          (if w ≤ 5 then 1.0 else if w ≤ 20 then 1.2 else if w ≤ 50 then 1.5
           else 2.0)) ∧
    getWeightCategory 5 = .light ∧
    getWeightCategory 5.01 = .medium ∧
    getWeightCategory 20 = .medium ∧
    getWeightCategory 50 = .heavy ∧
    getWeightCategory 50.01 = .extra_heavy := by
  refine ⟨?_, ?_, ?_, ?_, ?_, ?_⟩
  · intro w d
    by_cases h1 : w ≤ 5 <;> by_cases h2 : w ≤ 20 <;> by_cases h3 : w ≤ 50 <;>
      simp [calculatePrice, getWeightCategory, weightMultiplier, basePrice,
        pricePerKm, h1, h2, h3] <;> norm_num
  all_goals (simp only [getWeightCategory]; norm_num)

/-- C4 counterexample: at the fixed distance 0 the price does not strictly
increase across weight tiers — a light parcel (weight 1) and a medium parcel
(weight 10) get the same price. -/
theorem calculatePrice_tiers_not_strict_at_zero :
    getWeightCategory 1 = .light ∧ getWeightCategory 10 = .medium ∧
    calculatePrice 1 0 = calculatePrice 10 0 := by
  refine ⟨by simp only [getWeightCategory]; norm_num,
    by simp only [getWeightCategory]; norm_num, ?_⟩
  norm_num [calculatePrice, getWeightCategory, weightMultiplier, basePrice,
    pricePerKm]

/-- C4 (amended): for every fixed weight the price is non-decreasing in
distance; for every fixed positive distance the price strictly increases
across the weight tiers light → medium → heavy → extra_heavy. -/
theorem calculatePrice_monotone :
    (∀ (w : ℚ) (d1 d2 : ℝ), d1 ≤ d2 →
      calculatePrice w d1 ≤ calculatePrice w d2) ∧
    (∀ (d : ℝ) (w1 w2 : ℚ), 0 < d →
      tierIndex (getWeightCategory w1) < tierIndex (getWeightCategory w2) →
      calculatePrice w1 d < calculatePrice w2 d) := by
  have hmul : ∀ c : WeightCategory, (0 : ℝ) < (weightMultiplier c : ℝ) := by
    intro c; cases c <;> norm_num [weightMultiplier]
  have hlt : ∀ c1 c2 : WeightCategory, tierIndex c1 < tierIndex c2 →
      (weightMultiplier c1 : ℝ) < (weightMultiplier c2 : ℝ) := by
    intro c1 c2 h
    cases c1 <;> cases c2 <;> simp [tierIndex] at h ⊢ <;>
      norm_num [weightMultiplier]
  have hpk : (pricePerKm : ℝ) = 0.5 := by norm_num [pricePerKm]
  constructor
  · intro w d1 d2 hd
    unfold calculatePrice
    rw [hpk]
    nlinarith [hmul (getWeightCategory w)]
  · intro d w1 w2 hd ht
    unfold calculatePrice
    rw [hpk]
    nlinarith [hlt _ _ ht, hmul (getWeightCategory w1),
      hmul (getWeightCategory w2)]

/-- Witness for `calculatePrice_monotone` at concrete inputs. -/
theorem calculatePrice_monotone_witness :
    calculatePrice 2 3 ≤ calculatePrice 2 4 ∧
    calculatePrice 2 1 < calculatePrice 10 1 :=
  ⟨calculatePrice_monotone.1 2 3 4 (by norm_num),
   calculatePrice_monotone.2 1 2 10 (by norm_num)
     (by simp only [getWeightCategory, tierIndex]; norm_num)⟩

/-- C6: the shared location validation fails exactly when a coordinate is
falsy (0), a coordinate is out of range, or the address is empty after
trimming. -/
theorem validateLocation_fails_iff (loc : Location) :
    (∃ e, validateLocation loc = .error e) ↔
      (loc.latitude = 0 ∨ loc.longitude = 0 ∨
       loc.latitude < -90 ∨ 90 < loc.latitude ∨
       loc.longitude < -180 ∨ 180 < loc.longitude ∨
       (jsTrim loc.address).length = 0) := by
  constructor
  · rintro ⟨e, he⟩
    unfold validateLocation at he
    split_ifs at he with h1 h2 h3 h4
    · tauto
    · tauto
    · tauto
    · rcases h4 with h | h
      · have hz : (jsTrim loc.address).length = 0 := by rw [h]; rfl
        tauto
      · tauto
  · intro h
    unfold validateLocation
    split_ifs with h1 h2 h3 h4
    · exact ⟨_, rfl⟩
    · exact ⟨_, rfl⟩
    · exact ⟨_, rfl⟩
    · exact ⟨_, rfl⟩
    · exfalso
      push_neg at h1 h2 h3 h4
      rcases h with h | h | h | h | h | h | h
      · exact h1.1 h
      · exact h1.2 h
      · linarith [h2.1]
      · linarith [h2.2]
      · linarith [h3.1]
      · linarith [h3.2]
      · exact h4.2 h

/-- The Haversine distance is exactly symmetric over the reals: both the
latitude and longitude differences only enter through squared sines. -/
theorem calculateDistance_comm (a b : Location) :
    calculateDistance a b = calculateDistance b a := by
  simp only [calculateDistance, toRadians]
  have h1 : ((a.latitude : ℝ) - (b.latitude : ℝ)) =
      -((b.latitude : ℝ) - (a.latitude : ℝ)) := by ring
  have h2 : ((a.longitude : ℝ) - (b.longitude : ℝ)) =
      -((b.longitude : ℝ) - (a.longitude : ℝ)) := by ring
  rw [h1, h2]
  simp only [neg_mul, neg_div, Real.sin_neg]
  ring_nf

/-- The Haversine distance from a point to itself is zero. -/
theorem calculateDistance_self_eq_zero (a : Location) :
    calculateDistance a a = 0 := by
  simp only [calculateDistance, toRadians, sub_self, zero_mul, zero_div,
    Real.sin_zero, mul_zero, add_zero, zero_add, Real.sqrt_zero, sub_zero,
    Real.sqrt_one]
  rw [atan2]
  simp [Real.arctan_zero]

/-- C5: for all coordinate pairs, `distanceKm(a, b)` equals
`distanceKm(b, a)` within 1e-9 (in fact exactly, over the reals), and
`distanceKm(a, a) = 0`. -/
theorem calculateDistance_symm_and_refl (a b : Location) :
    |calculateDistance a b - calculateDistance b a| ≤ 1 / 10 ^ 9 ∧
    calculateDistance a a = 0 := by
  refine ⟨?_, calculateDistance_self_eq_zero a⟩
  rw [calculateDistance_comm a b, sub_self, abs_zero]
  norm_num

/-- C7 counterexample: a parcel with dimensions (150, 150, 150) is not
oversized and passes validation (the oversize check is strict `> 150`). -/
theorem validateParcelData_150_cube_ok :
    isOversized { length := 150, width := 150, height := 150 } = false ∧
    validateParcelData
      { description := "Box", weight := 10,
        dimensions := { length := 150, width := 150, height := 150 },
        value := 0, fragile := false } = .ok () := by
  constructor <;> rfl

/-- C7 (amended): a parcel with a dimension strictly above 150, e.g.
(150, 150, 151), fails validation as oversized, while (150, 150, 150) and
(150, 150, 149) both pass. -/
theorem validateParcelData_oversize_boundary :
    validateParcelData
      { description := "Box", weight := 10,
        dimensions := { length := 150, width := 150, height := 151 },
        value := 0, fragile := false } =
      .error "Parcel dimensions exceed maximum allowed size" ∧
    validateParcelData
      { description := "Box", weight := 10,
        dimensions := { length := 150, width := 150, height := 150 },
        value := 0, fragile := false } = .ok () ∧
    validateParcelData
      { description := "Box", weight := 10,
        dimensions := { length := 150, width := 150, height := 149 },
        value := 0, fragile := false } = .ok () := by
  refine ⟨?_, ?_, ?_⟩ <;> rfl

/-- C1: `createOrder` fails with `NotFound` ("Parcel not found") when the
parcel lookup returns nothing, with `Forbidden` ("Parcel does not belong to
user") when the parcel's owner differs, with `InvalidInput` (the location
validation error) when either location is invalid, and otherwise returns a
pending order whose distance/duration/price are derived from the parcel
weight and the two locations, with a fresh tracking number and
estimatedDelivery = now + duration minutes. -/
theorem createOrder_spec (orders : OrdersMap) (parcels : List Parcel)
    (userId : String) (od : CreateOrderRequest) (now : ℕ) (newId rand : String) :
    (getParcelById parcels od.parcelId = none →
      createOrder orders parcels userId od now newId rand =
        (.error "Parcel not found", orders)) ∧
    (∀ p, getParcelById parcels od.parcelId = some p → p.userId ≠ userId →
      createOrder orders parcels userId od now newId rand =
        (.error "Parcel does not belong to user", orders)) ∧
    (∀ p e, getParcelById parcels od.parcelId = some p → p.userId = userId →
      validateLocation od.pickupLocation = .error e →
      createOrder orders parcels userId od now newId rand = (.error e, orders)) ∧
    (∀ p e, getParcelById parcels od.parcelId = some p → p.userId = userId →
      validateLocation od.pickupLocation = .ok () →
      validateLocation od.destinationLocation = .error e →
      createOrder orders parcels userId od now newId rand = (.error e, orders)) ∧
    (∀ p, getParcelById parcels od.parcelId = some p → p.userId = userId →
      validateLocation od.pickupLocation = .ok () →
      validateLocation od.destinationLocation = .ok () →
      createOrder orders parcels userId od now newId rand =
        (.ok
          { id := newId
            userId := userId
            parcelId := od.parcelId
            pickupLocation := od.pickupLocation
            destinationLocation := od.destinationLocation
            status := .pending
            currentLocation := none
            estimatedDelivery := (now : ℤ) +
              calculateDuration
                (calculateDistance od.pickupLocation od.destinationLocation) *
                60 * 1000
            actualDelivery := none
            distance := calculateDistance od.pickupLocation od.destinationLocation
            duration := calculateDuration
              (calculateDistance od.pickupLocation od.destinationLocation)
            price := calculatePrice p.weight
              (calculateDistance od.pickupLocation od.destinationLocation)
            trackingNumber := generateTrackingNumber now rand
            createdAt := (now : ℤ)
            updatedAt := (now : ℤ) },
         mapSet orders newId
          { id := newId
            userId := userId
            parcelId := od.parcelId
            pickupLocation := od.pickupLocation
            destinationLocation := od.destinationLocation
            status := .pending
            currentLocation := none
            estimatedDelivery := (now : ℤ) +
              calculateDuration
                (calculateDistance od.pickupLocation od.destinationLocation) *
                60 * 1000
            actualDelivery := none
            distance := calculateDistance od.pickupLocation od.destinationLocation
            duration := calculateDuration
              (calculateDistance od.pickupLocation od.destinationLocation)
            price := calculatePrice p.weight
              (calculateDistance od.pickupLocation od.destinationLocation)
            trackingNumber := generateTrackingNumber now rand
            createdAt := (now : ℤ)
            updatedAt := (now : ℤ) })) := by
  refine ⟨?_, ?_, ?_, ?_, ?_⟩
  · intro h
    simp only [createOrder, h]
  · intro p h hne
    simp only [createOrder, h]
    rw [if_pos hne]
  · intro p e h heq hv
    simp only [createOrder, h, hv]
    rw [if_neg (not_ne_iff.mpr heq)]
  · intro p e h heq hv1 hv2
    simp only [createOrder, h, hv1, hv2]
    rw [if_neg (not_ne_iff.mpr heq)]
  · intro p h heq hv1 hv2
    simp only [createOrder, h, hv1, hv2]
    rw [if_neg (not_ne_iff.mpr heq)]

/-- C2: `updateOrderDestination` fails with `InvalidState` for every
non-pending order, with `InvalidInput` when the new destination fails
validation, with `NotFound` when the parcel no longer exists, and on success
recomputes distance, duration, price and estimatedDelivery together; every
failing call leaves the orders map (hence every stored order) unchanged. -/
theorem updateOrderDestination_spec (orders : OrdersMap) (parcels : List Parcel)
    (id : String) (dest : Location) (now : ℕ) (order : DeliveryOrder)
    (h : lookupOrder orders id = some order) :
    (order.status ≠ .pending →
      updateOrderDestination orders parcels id dest now =
        (.error "Cannot change destination for orders that are already in progress",
          orders)) ∧
    (∀ e, order.status = .pending → validateLocation dest = .error e →
      updateOrderDestination orders parcels id dest now = (.error e, orders)) ∧
    (order.status = .pending → validateLocation dest = .ok () →
      getParcelById parcels order.parcelId = none →
      updateOrderDestination orders parcels id dest now =
        (.error "Parcel not found", orders)) ∧
    (∀ p, order.status = .pending → validateLocation dest = .ok () →
      getParcelById parcels order.parcelId = some p →
      updateOrderDestination orders parcels id dest now =
        (.ok (some
          { order with
            destinationLocation := dest
            distance := calculateDistance order.pickupLocation dest
            duration := calculateDuration (calculateDistance order.pickupLocation dest)
            price := calculatePrice p.weight (calculateDistance order.pickupLocation dest)
            estimatedDelivery := (now : ℤ) +
              calculateDuration (calculateDistance order.pickupLocation dest) * 60 * 1000
            updatedAt := (now : ℤ) }),
         mapSet orders id
          { order with
            destinationLocation := dest
            distance := calculateDistance order.pickupLocation dest
            duration := calculateDuration (calculateDistance order.pickupLocation dest)
            price := calculatePrice p.weight (calculateDistance order.pickupLocation dest)
            estimatedDelivery := (now : ℤ) +
              calculateDuration (calculateDistance order.pickupLocation dest) * 60 * 1000
            updatedAt := (now : ℤ) })) := by
  refine ⟨?_, ?_, ?_, ?_⟩
  · intro hs
    simp only [updateOrderDestination, h]
    rw [if_pos hs]
  · intro e hs hv
    simp only [updateOrderDestination, h, hv]
    rw [if_neg (not_ne_iff.mpr hs)]
  · intro hs hv hp
    simp only [updateOrderDestination, h, hv, hp]
    rw [if_neg (not_ne_iff.mpr hs)]
  · intro p hs hv hp
    simp only [updateOrderDestination, h, hv, hp]
    rw [if_neg (not_ne_iff.mpr hs)]

/-- C9: `updateOrderStatus` sets the status unconditionally (no transition
guard), sets `actualDelivery = now` when the new status is delivered, and
otherwise carries the stored `actualDelivery` over unchanged (never resets
it to none). -/
theorem updateOrderStatus_spec (orders : OrdersMap) (id : String)
    (st : OrderStatus) (loc : Option Location) (now : ℕ) (order : DeliveryOrder)
    (h : lookupOrder orders id = some order) :
    ∃ u, updateOrderStatus orders id st loc now = (some u, mapSet orders id u) ∧
      u.status = st ∧
      (st = .delivered → u.actualDelivery = some (now : ℤ)) ∧
      (st ≠ .delivered → u.actualDelivery = order.actualDelivery) := by
  simp only [updateOrderStatus, h]
  by_cases hd : st = OrderStatus.delivered
  · rw [if_pos hd]
    exact ⟨_, rfl, rfl, fun _ => rfl, fun hne => absurd hd hne⟩
  · rw [if_neg hd]
    exact ⟨_, rfl, rfl, fun hh => absurd hh hd, fun _ => rfl⟩

/-- C10: calling `updateOrderStatus` without a location argument overwrites
any previously stored `currentLocation` with `undefined` (`none`); in
particular `cancelOrder`, which delegates with no location, clears it. -/
theorem updateOrderStatus_clears_location (orders : OrdersMap) (id : String)
    (st : OrderStatus) (now : ℕ) (order : DeliveryOrder) (l : Location)
    (h : lookupOrder orders id = some order)
    (hl : order.currentLocation = some l) :
    (∀ u m, updateOrderStatus orders id st none now = (some u, m) →
      u.currentLocation = none) ∧
    (order.status ≠ .delivered → order.status ≠ .cancelled →
      ∃ u m, cancelOrder orders id now = .ok (some u, m) ∧
        u.currentLocation = none) := by
  constructor
  · intro u m hu
    simp only [updateOrderStatus, h] at hu
    by_cases hd : st = OrderStatus.delivered
    · rw [if_pos hd] at hu
      simp only [Prod.mk.injEq, Option.some.injEq] at hu
      rw [← hu.1]
    · rw [if_neg hd] at hu
      simp only [Prod.mk.injEq, Option.some.injEq] at hu
      rw [← hu.1]
  · intro hd hc
    simp only [cancelOrder, h]
    rw [if_neg (not_or.mpr ⟨hd, hc⟩)]
    simp only [updateOrderStatus, h]
    rw [if_neg (by decide : ¬(OrderStatus.cancelled = OrderStatus.delivered))]
    exact ⟨_, _, rfl, rfl⟩

/-- Witness for `createOrder_spec`: each of the five cases at concrete
inputs. -/
theorem createOrder_spec_witness :
    createOrder [] [] "user-1" demoRequest 1700000000000 "o-1" "abc123" =
      (.error "Parcel not found", []) ∧
    createOrder [] [demoParcel] "user-2" demoRequest 1700000000000 "o-1" "abc123" =
      (.error "Parcel does not belong to user", []) ∧
    createOrder [] [demoParcel] "user-1" demoBadPickupRequest 1700000000000 "o-1" "abc123" =
      (.error "Latitude and longitude are required", []) ∧
    createOrder [] [demoParcel] "user-1" demoBadDestRequest 1700000000000 "o-1" "abc123" =
      (.error "Invalid longitude", []) ∧
    createOrder [] [demoParcel] "user-1" demoRequest 1700000000000 "o-1" "abc123" =
      (.ok demoCreatedOrder, mapSet [] "o-1" demoCreatedOrder) := by
  refine ⟨?_, ?_, ?_, ?_, ?_⟩
  · exact (createOrder_spec [] [] "user-1" demoRequest 1700000000000 "o-1"
      "abc123").1 rfl
  · exact (createOrder_spec [] [demoParcel] "user-2" demoRequest 1700000000000
      "o-1" "abc123").2.1 demoParcel rfl (by decide)
  · exact (createOrder_spec [] [demoParcel] "user-1" demoBadPickupRequest
      1700000000000 "o-1" "abc123").2.2.1 demoParcel
      "Latitude and longitude are required" rfl rfl rfl
  · exact (createOrder_spec [] [demoParcel] "user-1" demoBadDestRequest
      1700000000000 "o-1" "abc123").2.2.2.1 demoParcel "Invalid longitude"
      rfl rfl rfl rfl
  · exact (createOrder_spec [] [demoParcel] "user-1" demoRequest 1700000000000
      "o-1" "abc123").2.2.2.2 demoParcel rfl rfl rfl rfl

/-- Witness for `updateOrderDestination_spec`: each of the four cases at
concrete inputs. -/
theorem updateOrderDestination_spec_witness :
    updateOrderDestination [("order-1", { demoOrder with status := .in_transit })]
      [demoParcel] "order-1" demoDest 1700000000000 =
      (.error "Cannot change destination for orders that are already in progress",
        [("order-1", { demoOrder with status := .in_transit })]) ∧
    updateOrderDestination [("order-1", demoOrder)] [demoParcel] "order-1"
      { demoDest with latitude := 100 } 1700000000000 =
      (.error "Invalid latitude", [("order-1", demoOrder)]) ∧
    updateOrderDestination [("order-1", demoOrder)] [] "order-1" demoDest
      1700000000000 =
      (.error "Parcel not found", [("order-1", demoOrder)]) ∧
    updateOrderDestination [("order-1", demoOrder)] [demoParcel] "order-1"
      demoDest 1700000000000 =
      (.ok (some demoUpdatedOrder),
       mapSet [("order-1", demoOrder)] "order-1" demoUpdatedOrder) := by
  refine ⟨?_, ?_, ?_, ?_⟩
  · exact (updateOrderDestination_spec
      [("order-1", { demoOrder with status := .in_transit })] [demoParcel]
      "order-1" demoDest 1700000000000
      { demoOrder with status := .in_transit } rfl).1 (by decide)
  · exact (updateOrderDestination_spec [("order-1", demoOrder)] [demoParcel]
      "order-1" { demoDest with latitude := 100 } 1700000000000 demoOrder
      rfl).2.1 "Invalid latitude" rfl rfl
  · exact (updateOrderDestination_spec [("order-1", demoOrder)] []
      "order-1" demoDest 1700000000000 demoOrder rfl).2.2.1 rfl rfl rfl
  · exact (updateOrderDestination_spec [("order-1", demoOrder)] [demoParcel]
      "order-1" demoDest 1700000000000 demoOrder rfl).2.2.2 demoParcel
      rfl rfl rfl

/-- Witness for `updateOrderStatus_spec` at concrete inputs (delivering a
pending order). -/
theorem updateOrderStatus_spec_witness :
    ∃ u, updateOrderStatus [("order-1", demoOrder)] "order-1" .delivered none
        1700000000000 =
        (some u, mapSet [("order-1", demoOrder)] "order-1" u) ∧
      u.status = .delivered ∧
      (OrderStatus.delivered = .delivered →
        u.actualDelivery = some ((1700000000000 : ℕ) : ℤ)) ∧
      (OrderStatus.delivered ≠ .delivered →
        u.actualDelivery = demoOrder.actualDelivery) :=
  updateOrderStatus_spec [("order-1", demoOrder)] "order-1" .delivered none
    1700000000000 demoOrder rfl

/-- Witness for `updateOrderStatus_clears_location` at concrete inputs. -/
theorem updateOrderStatus_clears_location_witness :
    ({ demoOrder with
        status := OrderStatus.picked_up
        currentLocation := none
        updatedAt := ((1700000000000 : ℕ) : ℤ) } : DeliveryOrder).currentLocation
      = none ∧
    (∃ u m, cancelOrder [("order-1", demoOrder)] "order-1" 1700000000000 =
        .ok (some u, m) ∧ u.currentLocation = none) := by
  have h := updateOrderStatus_clears_location [("order-1", demoOrder)]
    "order-1" OrderStatus.picked_up 1700000000000 demoOrder demoPickup rfl rfl
  exact ⟨h.1 _ _ rfl, h.2 (by decide) (by decide)⟩

/-- Reading back a valid code point from `Char.ofNat`. -/
theorem toNat_ofNat_valid (n : ℕ) (h : n < 55296) : (Char.ofNat n).toNat = n := by
  unfold Char.ofNat
  rw [dif_pos (Or.inl h)]
  rfl

/-- Base-36 digit characters are lowercase base-36 characters. -/
theorem isLowerB36_digitChar36 (d : ℕ) (hd : d < 36) :
    isLowerB36 (digitChar36 d) = true := by
  unfold digitChar36
  by_cases h : d < 10
  · rw [if_pos h]
    unfold isLowerB36
    rw [toNat_ofNat_valid _ (by omega)]
    simp only [Bool.or_eq_true, Bool.and_eq_true, decide_eq_true_eq]
    omega
  · rw [if_neg h]
    unfold isLowerB36
    rw [toNat_ofNat_valid _ (by omega)]
    simp only [Bool.or_eq_true, Bool.and_eq_true, decide_eq_true_eq]
    omega

/-- Every character produced by `toBase36` is a lowercase base-36 char. -/
theorem toBase36_chars (n : ℕ) : ∀ c ∈ toBase36 n, isLowerB36 c = true := by
  induction n using Nat.strong_induction_on with
  | _ n ih =>
    unfold toBase36
    by_cases h : n < 36
    · rw [dif_pos h]
      intro c hc
      rw [List.mem_singleton] at hc
      subst hc
      exact isLowerB36_digitChar36 n h
    · rw [dif_neg h]
      intro c hc
      rw [List.mem_append] at hc
      rcases hc with hc | hc
      · exact ih (n / 36) (Nat.div_lt_self (by omega) (by omega)) c hc
      · rw [List.mem_singleton] at hc
        subst hc
        exact isLowerB36_digitChar36 _ (Nat.mod_lt _ (by omega))

/-- The output of `toBase36` is never empty. -/
theorem toBase36_length_pos (n : ℕ) : 0 < (toBase36 n).length := by
  unfold toBase36
  by_cases h : n < 36
  · rw [dif_pos h]; simp
  · rw [dif_neg h]; simp

/-- Upper-casing a lowercase base-36 char lands in the [0-9A-Z] class. -/
theorem isUpperB36_asciiToUpper (c : Char) (h : isLowerB36 c = true) :
    isUpperB36 (asciiToUpper c) = true := by
  unfold isLowerB36 at h
  simp only [Bool.or_eq_true, Bool.and_eq_true, decide_eq_true_eq] at h
  unfold asciiToUpper isUpperB36
  rcases h with ⟨h1, h2⟩ | ⟨h1, h2⟩
  · rw [if_neg (by omega)]
    simp only [Bool.or_eq_true, Bool.and_eq_true, decide_eq_true_eq]
    omega
  · rw [if_pos ⟨h1, h2⟩]
    rw [toNat_ofNat_valid _ (by omega)]
    simp only [Bool.or_eq_true, Bool.and_eq_true, decide_eq_true_eq]
    omega

/-- Character data of a generated tracking number. -/
theorem generateTrackingNumber_data (t : ℕ) (rand : String) :
    (generateTrackingNumber t rand).data =
      'S' :: 'I' :: 'T' :: (toBase36 t ++ rand.data).map asciiToUpper := rfl

/-- C8: a generated tracking number is an upper-case string matching
`SIT[0-9A-Z]+` (given that the random suffix consists of `toString(36)`
output characters); `createOrder` assigns it exactly once at creation, and
`updateOrderStatus`, `updateOrderDestination` and `cancelOrder` never change
the stored tracking number. -/
theorem trackingNumber_invariant :
    (∀ (t : ℕ) (rand : String), (∀ c ∈ rand.data, isLowerB36 c = true) →
      specTrackingShape (generateTrackingNumber t rand) = true) ∧
    (∀ (orders : OrdersMap) (parcels : List Parcel) (userId : String)
      (od : CreateOrderRequest) (now : ℕ) (newId rand : String)
      (p : Parcel) (o : DeliveryOrder) (m : OrdersMap),
      getParcelById parcels od.parcelId = some p →
      p.userId = userId →
      validateLocation od.pickupLocation = .ok () →
      validateLocation od.destinationLocation = .ok () →
      createOrder orders parcels userId od now newId rand = (.ok o, m) →
      o.trackingNumber = generateTrackingNumber now rand) ∧
    (∀ (orders : OrdersMap) (id : String) (st : OrderStatus)
      (loc : Option Location) (now : ℕ) (order u : DeliveryOrder)
      (m : OrdersMap),
      lookupOrder orders id = some order →
      updateOrderStatus orders id st loc now = (some u, m) →
      u.trackingNumber = order.trackingNumber) ∧
    (∀ (orders : OrdersMap) (parcels : List Parcel) (id : String)
      (dest : Location) (now : ℕ) (order u : DeliveryOrder) (m : OrdersMap),
      lookupOrder orders id = some order →
      updateOrderDestination orders parcels id dest now = (.ok (some u), m) →
      u.trackingNumber = order.trackingNumber) ∧
    (∀ (orders : OrdersMap) (id : String) (now : ℕ)
      (order u : DeliveryOrder) (m : OrdersMap),
      lookupOrder orders id = some order →
      cancelOrder orders id now = .ok (some u, m) →
      u.trackingNumber = order.trackingNumber) := by
  refine ⟨?_, ?_, ?_, ?_, ?_⟩
  · intro t rand hrand
    unfold specTrackingShape
    rw [generateTrackingNumber_data]
    simp only [Bool.and_eq_true, List.all_eq_true, beq_iff_eq, decide_eq_true_eq]
    refine ⟨⟨rfl, ?_⟩, ?_⟩
    · simp only [List.length_cons, List.length_map, List.length_append]
      have := toBase36_length_pos t
      omega
    · intro c hc
      simp only [List.drop_succ_cons, List.drop_zero] at hc
      rw [List.mem_map] at hc
      obtain ⟨c0, hc0, rfl⟩ := hc
      rw [List.mem_append] at hc0
      rcases hc0 with hc0 | hc0
      · exact isUpperB36_asciiToUpper c0 (toBase36_chars t c0 hc0)
      · exact isUpperB36_asciiToUpper c0 (hrand c0 hc0)
  · intro orders parcels userId od now newId rand p o m hp hu hv1 hv2 he
    simp only [createOrder, hp, hv1, hv2] at he
    rw [if_neg (not_ne_iff.mpr hu)] at he
    simp only [Prod.mk.injEq, Except.ok.injEq] at he
    rw [← he.1]
  · intro orders id st loc now order u m h hu
    simp only [updateOrderStatus, h] at hu
    by_cases hd : st = OrderStatus.delivered
    · rw [if_pos hd] at hu
      simp only [Prod.mk.injEq, Option.some.injEq] at hu
      rw [← hu.1]
    · rw [if_neg hd] at hu
      simp only [Prod.mk.injEq, Option.some.injEq] at hu
      rw [← hu.1]
  · intro orders parcels id dest now order u m h hu
    simp only [updateOrderDestination, h] at hu
    by_cases hs : order.status = OrderStatus.pending
    · rw [if_neg (not_ne_iff.mpr hs)] at hu
      cases hv : validateLocation dest with
      | error e =>
        simp only [hv] at hu
        simp at hu
      | ok v =>
        simp only [hv] at hu
        cases hp : getParcelById parcels order.parcelId with
        | none =>
          simp only [hp] at hu
          simp at hu
        | some p =>
          simp only [hp] at hu
          simp only [Prod.mk.injEq, Except.ok.injEq, Option.some.injEq] at hu
          rw [← hu.1]
    · rw [if_pos hs] at hu
      simp at hu
  · intro orders id now order u m h hc
    simp only [cancelOrder, h] at hc
    by_cases ht : order.status = OrderStatus.delivered ∨
        order.status = OrderStatus.cancelled
    · rw [if_pos ht] at hc
      simp at hc
    · rw [if_neg ht] at hc
      simp only [updateOrderStatus, h, Except.ok.injEq] at hc
      rw [if_neg (by decide : ¬(OrderStatus.cancelled = OrderStatus.delivered))] at hc
      simp only [Prod.mk.injEq, Option.some.injEq] at hc
      rw [← hc.1]

/-- Witness for `trackingNumber_invariant`: each of the five parts at
concrete inputs. -/
theorem trackingNumber_invariant_witness :
    specTrackingShape (generateTrackingNumber 1700000000000 "abc123") = true ∧
    demoCreatedOrder.trackingNumber =
      generateTrackingNumber 1700000000000 "abc123" ∧
    ({ demoOrder with
        status := OrderStatus.picked_up
        currentLocation := none
        updatedAt := ((1700000000000 : ℕ) : ℤ) } : DeliveryOrder).trackingNumber =
      demoOrder.trackingNumber ∧
    demoUpdatedOrder.trackingNumber = demoOrder.trackingNumber ∧
    ({ demoOrder with
        status := OrderStatus.cancelled
        currentLocation := none
        updatedAt := ((1700000000000 : ℕ) : ℤ) } : DeliveryOrder).trackingNumber =
      demoOrder.trackingNumber := by
  refine ⟨?_, ?_, ?_, ?_, ?_⟩
  · exact trackingNumber_invariant.1 1700000000000 "abc123" (by decide)
  · exact trackingNumber_invariant.2.1 [] [demoParcel] "user-1" demoRequest
      1700000000000 "o-1" "abc123" demoParcel demoCreatedOrder _ rfl rfl rfl
      rfl rfl
  · exact trackingNumber_invariant.2.2.1 [("order-1", demoOrder)] "order-1"
      OrderStatus.picked_up none 1700000000000 demoOrder _ _ rfl rfl
  · exact trackingNumber_invariant.2.2.2.1 [("order-1", demoOrder)]
      [demoParcel] "order-1" demoDest 1700000000000 demoOrder _ _ rfl rfl
  · exact trackingNumber_invariant.2.2.2.2 [("order-1", demoOrder)] "order-1"
      1700000000000 demoOrder _ _ rfl rfl

end SendIT
